import Mathlib

/-!
Verification development for the GameLauncher repository: a shallow embedding
of the window/render/input core (WindowManager.cpp, GridRenderer,
ShortcutScanner/ShortcutParser, Settings) together with theorems about the
behaviour of the embedded operations.

Machine integers are modelled as `Int` with explicit `Int.tdiv` / `Int.tmod`
(C++ division truncates toward zero).  Pixel channel values are `Nat`s in
`[0, 255]`.  Fallible operations return `Option`.
-/

namespace GameLauncher

/-! Design constants, from `DataModels.h` (struct DesignConstants) and
`WinUser.h` (`WHEEL_DELTA`). -/

def TARGET_ICON_SIZE_PIXELS : Int := 256

def ICON_PADDING : Int := 30

def GRID_MARGIN : Int := 24

def LABEL_HEIGHT : Int := 70

def SELECTION_BORDER_INFLATE : Int := 3

def SELECTION_BORDER_PEN_WIDTH : Int := 4

def SELECTION_BORDER_EXTENSION : Int :=
  SELECTION_BORDER_INFLATE + Int.tdiv SELECTION_BORDER_PEN_WIDTH 2

def SELECTION_BORDER_PADDING : Int := 4

def WHEEL_DELTA : Int := 120

/-! ## Compositor alpha repair (WindowManager.cpp, WM_PAINT handler, lines 471-574)

A 32-bit ARGB pixel is modelled as four `Nat` channels.  The repair pass
operates pixel by pixel, so it is embedded as a per-pixel function applied
to every coordinate of the frame buffer, with two flags recording whether
the coordinate lies in the (clamped) tab-strip rectangle and whether it lies
in some icon's label sub-rectangle (`GetIconBounds`).  The tab-region loop
runs before the label-region loops, which the sequential composition in
`repairPixel` reflects. -/

structure Pixel where
  a : Nat
  r : Nat
  g : Nat
  b : Nat
deriving DecidableEq, Repr

/-- Background luminance used by the repair pass:
`int bgLuminance = (28 + 28 + 30) / 3;` (WindowManager.cpp:477). -/
def bgLuminance : Int := Int.tdiv (28 + 28 + 30) 3

/-- Tab-region repair (WindowManager.cpp:489-501): a pixel whose alpha is 0
is forced fully opaque, keeping its RGB; any other pixel is left untouched. -/
def tabRegionRepair (p : Pixel) : Pixel :=
  if p.a = 0 then { p with a := 255 } else p

/-- Label-region repair (WindowManager.cpp:518-562).  Pixels that already
carry non-zero alpha (icons composited via `AlphaBlend`) are skipped.  The
remaining pixels are classified as selection border (RGB range match),
pure-black undrawn background (skipped), or text/shadow by luminance
threshold; text/shadow pixels get a derived alpha and are premultiplied.
The C++ `(BYTE)` conversion of the derived alpha wraps modulo 256
(`Int.emod _ 256`): a negative derived alpha — the black-shadow formula at
luminance 29 yields `(28 - 29) * 255 / 28 = -9` — becomes `247`, exactly as
the two's-complement truncation to `BYTE` does in the source. -/
def labelRegionRepair (p : Pixel) : Pixel :=
  if 0 < p.a then p
  else
    let r : Int := p.r
    let g : Int := p.g
    let b : Int := p.b
    let isGreyBorder := 50 < r ∧ r < 80 ∧ 50 < g ∧ g < 80 ∧ 50 < b ∧ b < 80
    let isWhiteBorder := 250 < r ∧ 250 < g ∧ 250 < b
    if isGreyBorder ∨ isWhiteBorder then
      { a := 255, r := p.r, g := p.g, b := p.b }
    else if r = 0 ∧ g = 0 ∧ b = 0 then p
    else
      let luminance := Int.tdiv (r + g + b) 3
      let isWhiteText := bgLuminance + 50 < luminance
      let isBlackShadow := luminance < 30
      if isWhiteText ∨ isBlackShadow then
        let rawAlpha : Int :=
          if isBlackShadow then
            min 255 (Int.tdiv ((bgLuminance - luminance) * 255) bgLuminance)
          else
            min 255 (Int.tdiv ((luminance - bgLuminance) * 255) (255 - bgLuminance))
        let textAlpha : Nat := (Int.emod rawAlpha 256).toNat
        { a := textAlpha,
          r := p.r * textAlpha / 255,
          g := p.g * textAlpha / 255,
          b := p.b * textAlpha / 255 }
      else p

/-- Provenance of a pixel of the tab-strip region of the frame buffer.
`DrawTabs` (WindowManager.cpp:1196-1312) covers the whole tab-bar rectangle
with a `BitBlt` of the cached tab buffer; every tab-buffer pixel was written
either as the opaque bar background `0xFF2D2D32`, as an opaque tab fill
colour `0xFF000000 | rgb`, or by a GDI primitive (border `LineTo`, label
`DrawText`), which leaves the alpha byte at 0. -/
inductive TabStripSource where
  | fillBackground
  | tabFill (r g b : Nat)
  | gdiDrawn (r g b : Nat)
deriving DecidableEq, Repr

def tabStripPixel : TabStripSource → Pixel
  | .fillBackground => { a := 255, r := 0x2D, g := 0x2D, b := 0x32 }
  | .tabFill r g b => { a := 255, r := r, g := g, b := b }
  | .gdiDrawn r g b => { a := 0, r := r, g := g, b := b }

/-- Per-pixel view of the whole repair pass: the tab-region loop first, then
the label-region loops.  (A pixel covered by several label rectangles is
processed once here; the C++ repeated processing is absorbed because the
label pass either raises alpha above 0, in which case later visits skip it,
or leaves the pixel with a value on which the pass is stable.) -/
def repairPixel (inTabRegion inLabelRegion : Bool) (p : Pixel) : Pixel :=
  let p1 := if inTabRegion then tabRegionRepair p else p
  if inLabelRegion then labelRegionRepair p1 else p1

/-- An axis-aligned rectangle, `RECT`-style (half-open on right/bottom,
matching the `for (y = top; y < bottom; ...)` loops of the repair pass). -/
structure Rect where
  left : Int
  top : Int
  right : Int
  bottom : Int
deriving DecidableEq, Repr

def inRect (rc : Rect) (x y : Int) : Prop :=
  rc.left ≤ x ∧ x < rc.right ∧ rc.top ≤ y ∧ y < rc.bottom

instance (rc : Rect) (x y : Int) : Decidable (inRect rc x y) := by
  unfold inRect; infer_instance

/-- The repair pass over a frame buffer: every coordinate is rewritten with
`repairPixel`, the flags determined by the (already clamped) tab-strip
rectangle and the list of icon label rectangles. -/
def repairBuffer (tabRect : Rect) (labelRects : List Rect) (buf : Int → Int → Pixel)
    (x y : Int) : Pixel :=
  repairPixel (decide (inRect tabRect x y))
    (labelRects.any fun rc => decide (inRect rc x y)) (buf x y)

/-! ## Shortcut scanning (ShortcutScanner.cpp, ShortcutParser.cpp)

The file system is abstracted: a folder is a list of files, and for each
`.lnk` file the outcomes of the OS calls made by `ShortcutParser::ParseShortcut`
are recorded (`readable` = the shortcut file exists and `IPersistFile::Load`
succeeds; `targetExists` = `FileExists(targetPath)`). -/

structure LnkFile where
  name : String
  readable : Bool
  targetPath : String
  arguments : String
  workingDirectory : String
  targetExists : Bool
deriving DecidableEq, Repr

structure ShortcutInfo where
  displayName : String
  targetPath : String
  arguments : String
  workingDirectory : String
  isValid : Bool
deriving DecidableEq, Repr

structure TabInfo where
  name : String
  shortcuts : List ShortcutInfo
deriving DecidableEq, Repr

structure FolderFS where
  path : String
  name : String
  files : List LnkFile
deriving DecidableEq, Repr

/-- `ShortcutScanner::IsShortcutFile` (ShortcutScanner.cpp:202-211): at least
4 characters, and the last 4, lower-cased, are `.lnk`. -/
def isShortcutFile (filename : String) : Bool :=
  let cs := filename.data
  if cs.length < 4 then false
  else (cs.drop (cs.length - 4)).map Char.toLower == ['.', 'l', 'n', 'k']

/-- Index of the last occurrence of `pat` in `l`, mirroring
`std::wstring::rfind` (used on `".lnk"` in ShortcutParser.cpp:95). -/
def lastOccurrence (pat l : List Char) : Option Nat :=
  (List.range (l.length + 1)).foldl
    (fun acc i => if pat.isPrefixOf (l.drop i) then some i else acc) none

/-- Display-name trimming (ShortcutParser.cpp:91-98): the file name with
everything from the last occurrence of `".lnk"` on removed (`substr(0, pos)`);
unchanged if `".lnk"` does not occur. -/
def stripLnk (nm : String) : String :=
  match lastOccurrence ['.', 'l', 'n', 'k'] nm.data with
  | some i => String.mk (nm.data.take i)
  | none => nm

/-- The entry `ShortcutParser::ParseShortcut` builds for a loadable shortcut
file: target path and launch data as resolved, display name from the file
name, and `isValid` recording whether the target path is non-empty and the
target file exists (ShortcutParser.cpp:57-101). -/
def mkShortcutEntry (f : LnkFile) : ShortcutInfo :=
  { displayName := stripLnk f.name,
    targetPath := f.targetPath,
    arguments := f.arguments,
    workingDirectory := f.workingDirectory,
    isValid := f.targetPath ≠ "" && f.targetExists }

/-- `ShortcutParser::ParseShortcut` (ShortcutParser.cpp:35-104): fails (entry
dropped) only when the shortcut file cannot be read or loaded; a missing
target does not fail the parse, it only clears `isValid`.
`ShortcutScanner::ProcessShortcutFile` (ShortcutScanner.cpp:246-387) returns
the parse result unchanged (icon extraction never rejects an entry). -/
def parseShortcut (f : LnkFile) : Option ShortcutInfo :=
  if f.readable then some (mkShortcutEntry f) else none

/-- Lexicographic order on character lists: the `wchar_t` path comparison
used by `std::sort` on the collected shortcut file paths. -/
def charListLt : List Char → List Char → Bool
  | [], [] => false
  | [], _ :: _ => true
  | _ :: _, [] => false
  | a :: as, b :: bs =>
    if a < b then true
    else if b < a then false
    else charListLt as bs

def fileNameLt (a b : LnkFile) : Bool := charListLt a.name.data b.name.data

/-- Insertion used by `sortByFileName`. -/
def insertByFileName (f : LnkFile) : List LnkFile → List LnkFile
  | [] => [f]
  | g :: gs => if fileNameLt f g then f :: g :: gs else g :: insertByFileName f gs

/-- `std::sort(shortcutFiles.begin(), shortcutFiles.end())`
(ShortcutScanner.cpp:182): the files of one folder share the folder-path
prefix, so sorting the full paths is sorting the file names. -/
def sortByFileName (l : List LnkFile) : List LnkFile :=
  l.foldr insertByFileName []

/-- `ShortcutScanner::ScanFolderForShortcuts` (ShortcutScanner.cpp:153-200):
collect the `.lnk` files of the folder, sort them alphabetically, and keep
an entry for every file `ProcessShortcutFile` accepts, in order. -/
def scanFolderForShortcuts (folder : FolderFS) : List ShortcutInfo :=
  let shortcutFiles := folder.files.filter fun f => isShortcutFile f.name
  (sortByFileName shortcutFiles).filterMap parseShortcut

/-- Tab construction inside `ShortcutScanner::ScanTabs`
(ShortcutScanner.cpp:89-119): a tab is created only when the folder scan
produced at least one entry. -/
def buildTab (tabName : String) (folder : FolderFS) : Option TabInfo :=
  let ss := scanFolderForShortcuts folder
  if ss = [] then none else some { name := tabName, shortcuts := ss }

def folderPathLt (a b : FolderFS) : Bool := charListLt a.path.data b.path.data

def insertByFolderPath (f : FolderFS) : List FolderFS → List FolderFS
  | [] => [f]
  | g :: gs => if folderPathLt f g then f :: g :: gs else g :: insertByFolderPath f gs

/-- `FindSubfolders` sorts the subfolder paths (ShortcutScanner.cpp:142). -/
def sortByFolderPath (l : List FolderFS) : List FolderFS :=
  l.foldr insertByFolderPath []

/-- `ShortcutScanner::ScanTabs` (ShortcutScanner.cpp:70-122): a root tab
named `"All"` when the root folder has entries, then one tab per subfolder
(alphabetical by path) that has entries, named after the folder. -/
def scanTabs (root : FolderFS) (subfolders : List FolderFS) : List TabInfo :=
  (match buildTab "All" root with
   | some t => [t]
   | none => []) ++
  (sortByFolderPath subfolders).filterMap fun f => buildTab f.name f

/-! ## Settings (Settings.cpp, `Settings::Load`, lines 52-117)

Only the numeric display-tuning fields are modelled.  The raw values are the
numbers parsed from the INI file (the `float` icon scale is modelled by `ℚ`;
`0.25f`, `2.0f` and `3.0` are exactly representable, and `max`/`min` on
non-NaN floats is order-theoretic). -/

structure RawDisplaySettings where
  iconScale : ℚ
  iconLabelFontSize : Int
  tabFontSize : Int
  iconSpacingHorizontal : Int
  iconSpacingVertical : Int
  tabHeight : Int
  iconVerticalPadding : Int
deriving DecidableEq, Repr

structure DisplaySettings where
  iconScale : ℚ
  iconLabelFontSize : Int
  tabFontSize : Int
  iconSpacingHorizontal : Int
  iconSpacingVertical : Int
  tabHeight : Int
  iconVerticalPadding : Int
deriving DecidableEq, Repr

/-- The clamping applied by `Settings::Load` (Settings.cpp:68-90):
`iconScale = max(0.25f, min(2.0f, loadedScale))` and the analogous
`max(lo, min(hi, v))` for each integer display value. -/
def settingsLoadDisplay (raw : RawDisplaySettings) : DisplaySettings :=
  { iconScale := max (1 / 4 : ℚ) (min 2 raw.iconScale),
    iconLabelFontSize := max 8 (min 72 raw.iconLabelFontSize),
    tabFontSize := max 8 (min 50 raw.tabFontSize),
    iconSpacingHorizontal := max 0 (min 100 raw.iconSpacingHorizontal),
    iconSpacingVertical := max 0 (min 100 raw.iconSpacingVertical),
    tabHeight := max 20 (min 100 raw.tabHeight),
    iconVerticalPadding := max 0 (min 50 raw.iconVerticalPadding) }

/-! ## Layout (WindowManager.cpp:93-98 and GameLauncher_impl.cpp:394-418) -/

/-- `WindowManager::CalculateGridColumns` (WindowManager.cpp:93-98):
`itemWidth = physicalIconSize + iconSpacingHorizontal;
return (availableWidth / itemWidth > 1) ? (availableWidth / itemWidth) : 1;`. -/
def calculateGridColumns (availableWidth physicalIconSize spacingH : Int) : Int :=
  let itemWidth := physicalIconSize + spacingH
  if 1 < Int.tdiv availableWidth itemWidth then Int.tdiv availableWidth itemWidth else 1

/-- `GridRenderer::CalculateGridLayout` (GameLauncher_impl.cpp:394-418),
returning `(cols, rows, startX, startY)`.  This variant spaces items by the
constant `ICON_PADDING`. -/
def calculateGridLayout (rectLeft rectTop rectRight : Int) (count : Nat)
    (physicalIconSize : Int) : Int × Int × Int × Int :=
  if count = 0 then (0, 0, 0, 0)
  else
    let availableWidth := rectRight - rectLeft
    let itemWidth := physicalIconSize + ICON_PADDING
    let cols := if 1 < Int.tdiv availableWidth itemWidth
                then Int.tdiv availableWidth itemWidth else 1
    let rows := Int.tdiv ((count : Int) + cols - 1) cols
    let totalGridWidth := cols * itemWidth - ICON_PADDING
    let startX := rectLeft + Int.tdiv (availableWidth - totalGridWidth) 2
    let startY := rectTop + SELECTION_BORDER_PADDING
    (cols, rows, startX, startY)

/-! ## Navigation state machine (WindowManager.cpp)

The machine state bundles the fields of `WindowManager` that the input
handlers read and write.  Geometry inputs that the handlers recompute from
the window and the settings on every call (grid rectangle size, physical
icon size, spacings, scroll speeds) are bundled in `Geometry` and held fixed
across a run of the machine (they change only with a resize, whose
`WM_SIZE` reset is itself a machine event). -/

structure Geometry where
  availW : Int
  availH : Int
  iconSize : Int
  spacingH : Int
  spacingV : Int
  vpad : Int
  mouseSpeed : Int
  joySpeed : Int
deriving DecidableEq, Repr

/-- The well-formedness guaranteed by the `Settings::Load` clamps (icon scale
at least 0.25 so the physical icon size is at least 64, non-negative
spacings and padding) and by a non-degenerate grid rectangle. -/
def Geometry.wf (g : Geometry) : Prop :=
  0 < g.iconSize ∧ 0 ≤ g.spacingH ∧ 0 ≤ g.spacingV ∧ 0 ≤ g.vpad ∧
  0 ≤ g.availW ∧ 0 ≤ g.availH

instance (g : Geometry) : Decidable g.wf := by
  unfold Geometry.wf; infer_instance

def Geometry.itemWidth (g : Geometry) : Int := g.iconSize + g.spacingH

def Geometry.cols (g : Geometry) : Int :=
  calculateGridColumns g.availW g.iconSize g.spacingH

/-- `totalItemHeight = physicalIconSize + LABEL_HEIGHT + iconVerticalPadding`
(WindowManager.cpp:928 and elsewhere). -/
def Geometry.totalItemHeight (g : Geometry) : Int :=
  g.iconSize + LABEL_HEIGHT + g.vpad

def Geometry.rowHeight (g : Geometry) : Int := g.totalItemHeight + g.spacingV

/-- `rows = (count + cols - 1) / cols` (WindowManager.cpp:927). -/
def Geometry.rowsFor (g : Geometry) (count : Int) : Int :=
  Int.tdiv (count + g.cols - 1) g.cols

/-- `maxScroll = max(0, totalContentHeight - availableHeight)`
(WindowManager.cpp:929-931). -/
def Geometry.maxScroll (g : Geometry) (count : Int) : Int :=
  max 0 (g.rowsFor count * g.rowHeight - g.availH)

structure WMState where
  tabs : List TabInfo
  activeTabIndex : Int
  scrollOffset : Int
  selectedIconIndex : Int
  lastSelectedIconIndex : Int
  usingKeyboardNavigation : Bool
  tabBufferDirty : Bool
deriving DecidableEq, Repr

def WMState.tabCount (s : WMState) : Int := (s.tabs.length : Int)

def emptyTab : TabInfo := { name := "", shortcuts := [] }

/-- `tabs[activeTabIndex].shortcuts` as read by the handlers; the handlers
guard the index before the access. -/
def WMState.activeShortcuts (s : WMState) : List ShortcutInfo :=
  (s.tabs.getD s.activeTabIndex.toNat emptyTab).shortcuts

def WMState.activeCount (s : WMState) : Int := (s.activeShortcuts.length : Int)

/-- `WindowManager::IsValidTabState` (WindowManager.cpp:119-124). -/
def WMState.isValidTabState (s : WMState) : Bool :=
  decide (s.tabs ≠ [] ∧ 0 ≤ s.activeTabIndex ∧ s.activeTabIndex < s.tabCount ∧
    s.activeShortcuts ≠ [])

/-- Observable side effects of one handler call: window invalidation
(`InvalidateRect`), configuration save (`SaveWindowState`), hiding the
window, and a modal error message (`MessageBox`). -/
structure Effects where
  invalidate : Bool
  save : Bool
  hideWindow : Bool
  errorMsg : Option String
deriving DecidableEq, Repr

def noEffects : Effects :=
  { invalidate := false, save := false, hideWindow := false, errorMsg := none }

/-- `WindowManager::EnsureSelectedIconVisible` (WindowManager.cpp:1447-1495). -/
def ensureSelectedIconVisible (g : Geometry) (s : WMState) : WMState :=
  if ¬(s.isValidTabState = true) ∨ s.selectedIconIndex < 0 ∨
      s.activeCount ≤ s.selectedIconIndex then s
  else
    let cols := g.cols
    let row := Int.tdiv s.selectedIconIndex cols
    let totalItemHeight := g.iconSize + LABEL_HEIGHT + g.vpad
    let itemHeight := totalItemHeight + g.spacingV
    let iconTop := SELECTION_BORDER_PADDING + row * itemHeight - s.scrollOffset
    let iconBottom := iconTop + totalItemHeight
    let viewportBottom := g.availH
    if iconTop - SELECTION_BORDER_EXTENSION < 0 then
      let newOffset :=
        max 0 (SELECTION_BORDER_PADDING + row * itemHeight - SELECTION_BORDER_EXTENSION)
      { s with scrollOffset := newOffset }
    else if viewportBottom < iconBottom then
      let raw := SELECTION_BORDER_PADDING + row * itemHeight - viewportBottom + totalItemHeight
      let totalRows := Int.tdiv (s.activeCount + cols - 1) cols
      let maxScroll := max 0 (totalRows * itemHeight - viewportBottom)
      { s with scrollOffset := min raw maxScroll }
    else s

/-- `WindowManager::SetSelectedIcon` (WindowManager.cpp:1365-1416). -/
def setSelectedIcon (g : Geometry) (iconIndex : Int) (fromKeyboard : Bool)
    (s : WMState) : WMState × Effects :=
  if s.tabs = [] ∨ s.tabCount ≤ s.activeTabIndex then (s, noEffects)
  else if s.activeShortcuts = [] then (s, noEffects)
  else if iconIndex < -1 ∨ s.activeCount ≤ iconIndex then (s, noEffects)
  else
    let oldSelected := s.selectedIconIndex
    let newLast :=
      if s.selectedIconIndex ≠ -1 ∧ iconIndex = -1 then s.selectedIconIndex
      else if iconIndex ≠ -1 then iconIndex
      else s.lastSelectedIconIndex
    let s1 := { s with selectedIconIndex := iconIndex,
                       lastSelectedIconIndex := newLast,
                       usingKeyboardNavigation := fromKeyboard }
    let s2 := if fromKeyboard ∧ iconIndex ≠ -1 then ensureSelectedIconVisible g s1 else s1
    (s2, { noEffects with invalidate := oldSelected ≠ -1 ∨ s2.selectedIconIndex ≠ -1 })

/-- `WindowManager::SetActiveTab` (WindowManager.cpp:1162-1194). -/
def setActiveTab (tabIndex : Int) (s : WMState) : WMState × Effects :=
  if tabIndex < 0 ∨ s.tabCount ≤ tabIndex then (s, noEffects)
  else if s.activeTabIndex = tabIndex then (s, noEffects)
  else
    ({ s with activeTabIndex := tabIndex,
              tabBufferDirty := true,
              scrollOffset := 0,
              selectedIconIndex := -1,
              lastSelectedIconIndex := -1,
              usingKeyboardNavigation := false },
     { invalidate := true, save := true, hideWindow := false, errorMsg := none })

/-- First fully visible icon after a scroll: rows cut off at the top are
skipped, the result clamped to the valid icon range
(WindowManager.cpp:939-950, and identically 1056-1062). -/
def firstVisibleIconIndex (g : Geometry) (count scrollOffset : Int) : Int :=
  let rowHeight := g.rowHeight
  let firstFullyVisibleRow := Int.tdiv (scrollOffset + rowHeight - 1) rowHeight
  let idx := firstFullyVisibleRow * g.cols
  max 0 (min idx (count - 1))

/-- Shared body of `HandleMouseWheel` / `HandleJoystickScroll` after the
per-device scroll delta has been computed (WindowManager.cpp:913-961 and
972-1020; the two bodies are identical line by line). -/
def scrollCore (g : Geometry) (scrollDelta : Int) (s : WMState) : WMState × Effects :=
  let newScrollOffset := s.scrollOffset + scrollDelta
  let count := s.activeCount
  let maxScroll := g.maxScroll count
  let clamped := max 0 (min newScrollOffset maxScroll)
  if clamped ≠ s.scrollOffset then
    ({ s with scrollOffset := clamped,
              selectedIconIndex := firstVisibleIconIndex g count clamped,
              usingKeyboardNavigation := true },
     { invalidate := true, save := false, hideWindow := false, errorMsg := none })
  else (s, noEffects)

/-- `WindowManager::HandleMouseWheel` (WindowManager.cpp:905-962):
`scrollDelta = -delta / WHEEL_DELTA * mouseScrollSpeed`. -/
def handleMouseWheel (g : Geometry) (delta : Int) (s : WMState) : WMState × Effects :=
  if ¬(s.isValidTabState = true) then (s, noEffects)
  else scrollCore g (Int.tdiv (-delta) WHEEL_DELTA * g.mouseSpeed) s

/-- `WindowManager::HandleJoystickScroll` (WindowManager.cpp:964-1021): the
delta is already in pixels. -/
def handleJoystickScroll (g : Geometry) (delta : Int) (s : WMState) : WMState × Effects :=
  if ¬(s.isValidTabState = true) then (s, noEffects)
  else scrollCore g delta s

/-- `WindowManager::LaunchSelectedIcon` (WindowManager.cpp:1418-1445).
`launchOk` is the outcome of `ShellExecute` (`result > 32`). -/
def emptyShortcut : ShortcutInfo :=
  { displayName := "", targetPath := "", arguments := "", workingDirectory := "",
    isValid := false }

def launchSelectedIcon (launchOk : Bool) (s : WMState) : WMState × Effects :=
  if ¬(s.isValidTabState = true) ∨ s.selectedIconIndex < 0 ∨
      s.activeCount ≤ s.selectedIconIndex then (s, noEffects)
  else
    let shortcut := s.activeShortcuts.getD s.selectedIconIndex.toNat emptyShortcut
    if launchOk then
      (s, { invalidate := false, save := false, hideWindow := true, errorMsg := none })
    else
      (s, { invalidate := false, save := false, hideWindow := false,
            errorMsg := some ("Failed to launch: " ++ shortcut.displayName) })

/-- Keys handled by `WindowManager::HandleKeyDown` (`VK_TAB`, arrows,
`VK_RETURN`); `other` stands for any other key code. -/
inductive Key where
  | left
  | right
  | up
  | down
  | enter
  | tabKey
  | other
deriving DecidableEq, Repr

/-- The `VK_DOWN` branch of `HandleKeyDown` (WindowManager.cpp:1098-1114):
step a full row when an icon sits directly below; otherwise, when a next row
exists, jump to its last valid icon. -/
def downNavTarget (cols total sel : Int) : Int :=
  if sel + cols < total then sel + cols
  else
    let currentRow := Int.tdiv sel cols
    let nextRowStart := (currentRow + 1) * cols
    if nextRowStart < total then min (nextRowStart + cols - 1) (total - 1)
    else sel

/-- The arrow-key movement switch of `HandleKeyDown`
(WindowManager.cpp:1079-1114). -/
def keyNavTarget (cols total sel : Int) : Key → Int
  | .left => if 0 < sel then sel - 1 else sel
  | .right => if sel < total - 1 then sel + 1 else sel
  | .up => if cols ≤ sel then sel - cols else sel
  | .down => downNavTarget cols total sel
  | _ => sel

/-- Movement and confirm once a selection exists
(WindowManager.cpp:1069-1124): `VK_RETURN` launches, otherwise the movement
target is computed and `SetSelectedIcon` is called when it changed. -/
def keyNavStep (g : Geometry) (k : Key) (launchOk : Bool) (s : WMState) :
    WMState × Effects :=
  if k = Key.enter then launchSelectedIcon launchOk s
  else
    let newSel := keyNavTarget g.cols s.activeCount s.selectedIconIndex k
    if newSel ≠ s.selectedIconIndex then setSelectedIcon g newSel true s
    else (s, noEffects)

/-- `WindowManager::HandleKeyDown` (WindowManager.cpp:1023-1125). -/
def handleKeyDown (g : Geometry) (k : Key) (launchOk : Bool) (s : WMState) :
    WMState × Effects :=
  if ¬(s.isValidTabState = true) then (s, noEffects)
  else if k = Key.tabKey then
    setActiveTab (Int.tmod (s.activeTabIndex + 1) s.tabCount) s
  else
    let s0 := { s with usingKeyboardNavigation := true }
    if s0.selectedIconIndex = -1 then
      if s0.lastSelectedIconIndex ≠ -1 ∧ s0.lastSelectedIconIndex < s0.activeCount then
        keyNavStep g k launchOk { s0 with selectedIconIndex := s0.lastSelectedIconIndex }
      else
        setSelectedIcon g (firstVisibleIconIndex g s0.activeCount s0.scrollOffset) true s0
    else
      keyNavStep g k launchOk s0

/-- The movement part of `WindowManager::HandleControllerNavigation`
(WindowManager.cpp:1658-1686).  `newSelectedIndex` is computed first from
the horizontal component and then, still from the ORIGINAL selected index,
from the vertical component, so an applicable vertical move overwrites the
horizontal one. -/
def controllerNavTarget (cols total sel mx my : Int) : Int :=
  let afterX :=
    if mx = -1 ∧ 0 < sel then sel - 1
    else if mx = 1 ∧ sel < total - 1 then sel + 1
    else sel
  if my = -1 ∧ cols ≤ sel then sel - cols
  else if my = 1 then
    if sel + cols < total then sel + cols
    else
      let nextRowStart := (Int.tdiv sel cols + 1) * cols
      if nextRowStart < total then min (nextRowStart + cols - 1) (total - 1)
      else afterX
  else afterX

def controllerNavStep (g : Geometry) (mx my : Int) (s : WMState) : WMState × Effects :=
  let newSel := controllerNavTarget g.cols s.activeCount s.selectedIconIndex mx my
  if newSel ≠ s.selectedIconIndex then setSelectedIcon g newSel true s
  else (s, noEffects)

/-- `WindowManager::HandleControllerNavigation` (WindowManager.cpp:1612-1692). -/
def handleControllerNavigation (g : Geometry) (mx my : Int) (s : WMState) :
    WMState × Effects :=
  if ¬(s.isValidTabState = true) then (s, noEffects)
  else
    let s0 := { s with usingKeyboardNavigation := true }
    if s0.selectedIconIndex = -1 then
      if s0.lastSelectedIconIndex ≠ -1 ∧ s0.lastSelectedIconIndex < s0.activeCount then
        controllerNavStep g mx my { s0 with selectedIconIndex := s0.lastSelectedIconIndex }
      else
        setSelectedIcon g (firstVisibleIconIndex g s0.activeCount s0.scrollOffset) true s0
    else
      controllerNavStep g mx my s0

/-- One controller poll's directional inputs, as observed through
`ControllerManager` (ControllerManager.cpp): the `IsDPadPressed` /
`IsLeftStickPressed` edge-triggered flags and the raw left-stick axes used
for the magnitude comparison. -/
structure ControllerFrame where
  dpadUp : Bool
  dpadRight : Bool
  dpadDown : Bool
  dpadLeft : Bool
  stickUp : Bool
  stickRight : Bool
  stickDown : Bool
  stickLeft : Bool
  rawX : Int
  rawY : Int
deriving DecidableEq, Repr

/-- The direction-merge logic of `WindowManager::HandleControllerInput`
(WindowManager.cpp:1550-1596): when any D-pad direction is newly pressed the
digital input is used, both axes taken independently; otherwise the analog
stick resolves to the single axis with the larger raw magnitude (ties go to
the horizontal axis). -/
def controllerDirection (f : ControllerFrame) : Int × Int :=
  let usingDpad := f.dpadLeft || f.dpadRight || f.dpadUp || f.dpadDown
  if usingDpad then
    ((if f.dpadLeft then -1 else if f.dpadRight then 1 else 0),
     (if f.dpadUp then -1 else if f.dpadDown then 1 else 0))
  else if |f.rawX| < |f.rawY| then
    (0, if f.stickUp then -1 else if f.stickDown then 1 else 0)
  else
    ((if f.stickLeft then -1 else if f.stickRight then 1 else 0), 0)

def controllerMovePresent (f : ControllerFrame) : Bool :=
  (f.dpadLeft || f.stickLeft) || (f.dpadRight || f.stickRight) ||
  (f.dpadUp || f.stickUp) || (f.dpadDown || f.stickDown)

/-- The navigation dispatch of `HandleControllerInput`
(WindowManager.cpp:1565-1596): when some direction is newly pressed, merge
the inputs and run `HandleControllerNavigation`. -/
def handleControllerNavFrame (g : Geometry) (f : ControllerFrame) (s : WMState) :
    WMState × Effects :=
  if controllerMovePresent f then
    let d := controllerDirection f
    handleControllerNavigation g d.1 d.2 s
  else (s, noEffects)

/-- `WindowManager::HandleDoubleClick` (WindowManager.cpp:876-903): `i` is
the hit-tested icon index (`GetClickedShortcut`, which yields `-1` or a
valid index); a hit selects the icon and launches it. -/
def handleDoubleClick (g : Geometry) (i : Int) (launchOk : Bool) (s : WMState) :
    WMState × Effects :=
  if ¬(s.isValidTabState = true) then (s, noEffects)
  else if 0 ≤ i ∧ i < s.activeCount then
    let r1 := setSelectedIcon g i false s
    let r2 := launchSelectedIcon launchOk r1.1
    (r2.1, { invalidate := r1.2.invalidate || r2.2.invalidate,
             save := r1.2.save || r2.2.save,
             hideWindow := r1.2.hideWindow || r2.2.hideWindow,
             errorMsg := r2.2.errorMsg })
  else (s, noEffects)

/-- Input events dispatched to the navigation state machine by the message
loop and the controller poll.  Hit-test results and launch outcomes are
event data (the model admits arbitrary indices; the handlers validate them
exactly as the C++ does). -/
inductive Event where
  | selectIcon (i : Int) (fromKb : Bool)
  | tabClick (i : Int)
  | mouseWheel (delta : Int)
  | joyScroll (delta : Int)
  | keyDown (k : Key) (launchOk : Bool)
  | controller (f : ControllerFrame)
  | controllerA (launchOk : Bool)
  | doubleClick (i : Int) (launchOk : Bool)
  | resize
deriving DecidableEq, Repr

/-- One machine step.  `selectIcon` covers the `SetSelectedIcon` calls made
by `HandleMouseMove` / `HandleLeftClick` (their hit-tested argument is the
event datum); `tabClick` covers `HandleTabClick` (WindowManager.cpp:1146-1160)
and the shoulder-button tab switches; `resize` is the `WM_SIZE` reset
(WindowManager.cpp:674-683). -/
def step (g : Geometry) (e : Event) (s : WMState) : WMState × Effects :=
  match e with
  | .selectIcon i fromKb => setSelectedIcon g i fromKb s
  | .tabClick i =>
      if 0 ≤ i ∧ i < s.tabCount then setActiveTab i s else (s, noEffects)
  | .mouseWheel d => handleMouseWheel g d s
  | .joyScroll d => handleJoystickScroll g d s
  | .keyDown k ok => handleKeyDown g k ok s
  | .controller f => handleControllerNavFrame g f s
  | .controllerA ok => launchSelectedIcon ok s
  | .doubleClick i ok => handleDoubleClick g i ok s
  | .resize =>
      ({ s with scrollOffset := 0, selectedIconIndex := -1,
                usingKeyboardNavigation := false, tabBufferDirty := true },
       { invalidate := true, save := true, hideWindow := false, errorMsg := none })

/-- State after the constructor (WindowManager.cpp:19-47) and
`LoadShortcuts` (WindowManager.cpp:795-814): selection cleared, scroll 0,
active tab the saved index when valid, else the first tab. -/
def initState (tabs : List TabInfo) (savedActiveTab : Int) : WMState :=
  let active :=
    if tabs ≠ [] ∧ 0 ≤ savedActiveTab ∧ savedActiveTab < (tabs.length : Int)
    then savedActiveTab else 0
  { tabs := tabs, activeTabIndex := active, scrollOffset := 0,
    selectedIconIndex := -1, lastSelectedIconIndex := -1,
    usingKeyboardNavigation := false, tabBufferDirty := true }

/-- States of the navigation machine reachable from a freshly loaded
launcher through the input-driven transitions, with the scanned tab data and
the geometry fixed. -/
inductive Reachable (g : Geometry) (tabs : List TabInfo) : WMState → Prop where
  | init (saved : Int) : Reachable g tabs (initState tabs saved)
  | next (e : Event) {s : WMState} :
      Reachable g tabs s → Reachable g tabs (step g e s).1

/-- The machine invariant: selection is `-1` or in range for the active tab,
the active tab index is in range whenever tabs exist, the remembered last
selection is at least `-1`, and the scroll offset is within
`[0, maxScroll]`. -/
def Inv (g : Geometry) (s : WMState) : Prop :=
  (s.selectedIconIndex = -1 ∨
    (0 ≤ s.selectedIconIndex ∧ s.selectedIconIndex < s.activeCount)) ∧
  (0 ≤ s.activeTabIndex ∧ (s.tabs ≠ [] → s.activeTabIndex < s.tabCount)) ∧
  (-1 ≤ s.lastSelectedIconIndex) ∧
  (0 ≤ s.scrollOffset ∧ s.scrollOffset ≤ g.maxScroll s.activeCount)

/-! ## Concrete fixtures used by witnesses and counterexamples -/

def mkLnk (nm target : String) (targetOk : Bool) : LnkFile :=
  { name := nm, readable := true, targetPath := target, arguments := "",
    workingDirectory := "", targetExists := targetOk }

/-- A source folder `Games` holding two valid shortcuts and one shortcut
whose target file is missing (a dangling target). -/
def gamesFolder : FolderFS :=
  { path := "C:\\Data\\Games", name := "Games",
    files := [mkLnk "Zeta.lnk" "C:\\Games\\zeta.exe" true,
              mkLnk "Broken.lnk" "C:\\Games\\gone.exe" false,
              mkLnk "Alpha.lnk" "C:\\Games\\alpha.exe" true] }

def emptyRootFolder : FolderFS :=
  { path := "C:\\Data", name := "Data", files := [] }

def demoShortcut (nm : String) : ShortcutInfo :=
  { displayName := nm, targetPath := "C:\\Games\\" ++ nm ++ ".exe",
    arguments := "", workingDirectory := "", isValid := true }

/-- Geometry with a 240px-wide grid and 64px icons spaced by 12px, so that
`CalculateGridColumns` yields 3 columns, and a tall viewport. -/
def demoGeo : Geometry :=
  { availW := 240, availH := 1000, iconSize := 64, spacingH := 12,
    spacingV := 12, vpad := 4, mouseSpeed := 60, joySpeed := 120 }

def demoTab7 : TabInfo :=
  { name := "Games",
    shortcuts := [demoShortcut "A", demoShortcut "B", demoShortcut "C",
                  demoShortcut "D", demoShortcut "E", demoShortcut "F",
                  demoShortcut "G"] }

def demoTab9 : TabInfo :=
  { name := "More",
    shortcuts := [demoShortcut "A", demoShortcut "B", demoShortcut "C",
                  demoShortcut "D", demoShortcut "E", demoShortcut "F",
                  demoShortcut "G", demoShortcut "H", demoShortcut "I"] }

def demoTabs : List TabInfo := [demoTab7, demoTab9]

/-- A 7-item 3-column situation with the last icon (index 6) selected. -/
def demoState7 : WMState :=
  { tabs := demoTabs, activeTabIndex := 0, scrollOffset := 0,
    selectedIconIndex := 6, lastSelectedIconIndex := 6,
    usingKeyboardNavigation := true, tabBufferDirty := false }

/-- A 9-item 3-column situation with the first icon selected. -/
def demoState9 : WMState :=
  { tabs := demoTabs, activeTabIndex := 1, scrollOffset := 0,
    selectedIconIndex := 0, lastSelectedIconIndex := 0,
    usingKeyboardNavigation := true, tabBufferDirty := false }

/-- Controller frame with D-pad right and D-pad down both newly pressed and
a strongly deflected stick, to exercise the D-pad-over-stick priority. -/
def demoFrameDiag : ControllerFrame :=
  { dpadUp := false, dpadRight := true, dpadDown := true, dpadLeft := false,
    stickUp := true, stickRight := false, stickDown := false, stickLeft := true,
    rawX := -30000, rawY := 30000 }

def demoTabRect : Rect := { left := 0, top := 0, right := 120, bottom := 40 }

/-- A frame buffer whose left half came from the tab-strip `BitBlt` and
whose right half holds an icon pixel blended with alpha 128. -/
def demoBuf : Int → Int → Pixel := fun x _ =>
  if x < 60 then tabStripPixel TabStripSource.fillBackground
  else { a := 128, r := 10, g := 20, b := 30 }

/-! # Theorems -/

/-! ## General helper lemmas -/

theorem tdiv_sandwich (a b : Int) (ha : 0 ≤ a) (hb : 0 < b) :
    b * Int.tdiv a b ≤ a ∧ a < b * Int.tdiv a b + b := by
  rw [Int.tdiv_eq_ediv ha hb.le]
  have h1 := Int.ediv_add_emod a b
  have h2 := Int.emod_nonneg a (by omega : b ≠ 0)
  have h3 := Int.emod_lt_of_pos a hb
  omega

theorem tdiv_nonneg_of_nonneg (a b : Int) (ha : 0 ≤ a) (hb : 0 ≤ b) :
    0 ≤ Int.tdiv a b := Int.tdiv_nonneg ha hb

/-- Ceiling-division bridge: the C idiom `(n + c - 1) / c` on non-negative
operands computes the ceiling of `n / c`. -/
theorem tdiv_add_pred_eq_ceilDiv (n : Nat) (c : Int) (hc : 1 ≤ c) :
    Int.tdiv ((n : Int) + c - 1) c = ((n ⌈/⌉ c.toNat : Nat) : Int) := by
  obtain ⟨m, rfl⟩ : ∃ m : Nat, c = (m : Int) := ⟨c.toNat, by omega⟩
  have hm : 1 ≤ m := by exact_mod_cast hc
  have h0 : (0 : Int) ≤ (n : Int) + m - 1 := by omega
  rw [Int.tdiv_eq_ediv h0 (by omega)]
  have h1 : (n : Int) + m - 1 = ((n + m - 1 : Nat) : Int) := by omega
  rw [h1, ← Int.ofNat_ediv, Nat.ceilDiv_eq_add_pred_div, Int.toNat_natCast]

theorem cols_eq (g : Geometry) :
    g.cols = if 1 < Int.tdiv g.availW (g.iconSize + g.spacingH)
             then Int.tdiv g.availW (g.iconSize + g.spacingH) else 1 := rfl

theorem cols_pos (g : Geometry) : 1 ≤ g.cols := by
  rw [cols_eq]
  split <;> omega

theorem rowHeight_pos (g : Geometry) (hw : g.wf) : 0 < g.rowHeight := by
  obtain ⟨h1, h2, h3, h4, h5, h6⟩ := hw
  unfold Geometry.rowHeight Geometry.totalItemHeight LABEL_HEIGHT
  omega

theorem maxScroll_nonneg (g : Geometry) (c : Int) : 0 ≤ g.maxScroll c :=
  le_max_left 0 _

/-! ## C9: configuration clamping -/

/-- C9: every icon scale read from configuration is used clamped to
`[0.25, 2.0]` (with `3.0` becoming exactly `2.0`), and the other display
tuning values are confined to label font `[8,72]`, tab font `[8,50]`,
spacings `[0,100]`, tab bar height `[20,100]` and icon vertical padding
`[0,50]`. -/
theorem settings_clamp_ranges (raw : RawDisplaySettings) :
    (1 / 4 ≤ (settingsLoadDisplay raw).iconScale ∧
      (settingsLoadDisplay raw).iconScale ≤ 2) ∧
    (8 ≤ (settingsLoadDisplay raw).iconLabelFontSize ∧
      (settingsLoadDisplay raw).iconLabelFontSize ≤ 72) ∧
    (8 ≤ (settingsLoadDisplay raw).tabFontSize ∧
      (settingsLoadDisplay raw).tabFontSize ≤ 50) ∧
    (0 ≤ (settingsLoadDisplay raw).iconSpacingHorizontal ∧
      (settingsLoadDisplay raw).iconSpacingHorizontal ≤ 100) ∧
    (0 ≤ (settingsLoadDisplay raw).iconSpacingVertical ∧
      (settingsLoadDisplay raw).iconSpacingVertical ≤ 100) ∧
    (20 ≤ (settingsLoadDisplay raw).tabHeight ∧
      (settingsLoadDisplay raw).tabHeight ≤ 100) ∧
    (0 ≤ (settingsLoadDisplay raw).iconVerticalPadding ∧
      (settingsLoadDisplay raw).iconVerticalPadding ≤ 50) ∧
    (settingsLoadDisplay { raw with iconScale := 3 }).iconScale = 2 := by
  unfold settingsLoadDisplay
  refine ⟨⟨le_max_left _ _, max_le (by norm_num) (min_le_left _ _)⟩,
          ⟨le_max_left _ _, max_le (by norm_num) (min_le_left _ _)⟩,
          ⟨le_max_left _ _, max_le (by norm_num) (min_le_left _ _)⟩,
          ⟨le_max_left _ _, max_le (by norm_num) (min_le_left _ _)⟩,
          ⟨le_max_left _ _, max_le (by norm_num) (min_le_left _ _)⟩,
          ⟨le_max_left _ _, max_le (by norm_num) (min_le_left _ _)⟩,
          ⟨le_max_left _ _, max_le (by norm_num) (min_le_left _ _)⟩, ?_⟩
  norm_num

/-! ## C10: tab-switch no-op -/

/-- C10: requesting a tab switch to an index outside `[0, tab count)` or
equal to the current active tab is a complete no-op: the whole state
(active tab, scroll, selection, last selection, input-mode flag, tab-buffer
flag) is unchanged and neither a configuration save nor a redraw is
triggered. -/
theorem set_active_tab_noop (s : WMState) (i : Int)
    (h : i < 0 ∨ s.tabCount ≤ i ∨ i = s.activeTabIndex) :
    setActiveTab i s = (s, noEffects) := by
  unfold setActiveTab
  split_ifs with h1 h2
  · rfl
  · rfl
  · exfalso; omega

/-- Closed instance for `set_active_tab_noop`: clicking the already-active
tab of the demo launcher changes nothing. -/
theorem set_active_tab_noop_witness :
    ((0 : Int) < 0 ∨ demoState7.tabCount ≤ 0 ∨ (0 : Int) = demoState7.activeTabIndex) ∧
    setActiveTab 0 demoState7 = (demoState7, noEffects) :=
  ⟨by decide, set_active_tab_noop demoState7 0 (by decide)⟩

/-! ## C4: layout formulas -/

/-- C4: for a non-negative available width and a non-empty entry list, the
layout computes column count `max(1, floor(available width / (item width +
horizontal spacing)))` (both in `WindowManager::CalculateGridColumns`, where
the spacing is the configured horizontal icon spacing, and in
`GridRenderer::CalculateGridLayout`, where it is the constant
`ICON_PADDING`), row count `ceil(item count / column count)`, and re-running
the computation with identical inputs yields identical results. -/
theorem grid_layout_formulas (w iconSize sp l t r : Int) (count : Nat)
    (_hw : 0 ≤ w) (_hr : 0 ≤ r - l) (hcount : 0 < count) :
    calculateGridColumns w iconSize sp = max 1 (Int.tdiv w (iconSize + sp)) ∧
    (calculateGridLayout l t r count iconSize).1
      = max 1 (Int.tdiv (r - l) (iconSize + ICON_PADDING)) ∧
    (calculateGridLayout l t r count iconSize).2.1
      = ((count ⌈/⌉ (calculateGridLayout l t r count iconSize).1.toNat : Nat) : Int) ∧
    calculateGridLayout l t r count iconSize = calculateGridLayout l t r count iconSize := by
  have hcols : calculateGridColumns w iconSize sp
      = max 1 (Int.tdiv w (iconSize + sp)) := by
    have he : calculateGridColumns w iconSize sp
        = if 1 < Int.tdiv w (iconSize + sp) then Int.tdiv w (iconSize + sp) else 1 := rfl
    rw [he]; split <;> omega
  have hlay : calculateGridLayout l t r count iconSize =
      (if 1 < Int.tdiv (r - l) (iconSize + ICON_PADDING)
       then Int.tdiv (r - l) (iconSize + ICON_PADDING) else 1,
       Int.tdiv ((count : Int) +
         (if 1 < Int.tdiv (r - l) (iconSize + ICON_PADDING)
          then Int.tdiv (r - l) (iconSize + ICON_PADDING) else 1) - 1)
         (if 1 < Int.tdiv (r - l) (iconSize + ICON_PADDING)
          then Int.tdiv (r - l) (iconSize + ICON_PADDING) else 1),
       l + Int.tdiv ((r - l) -
         ((if 1 < Int.tdiv (r - l) (iconSize + ICON_PADDING)
           then Int.tdiv (r - l) (iconSize + ICON_PADDING) else 1) *
            (iconSize + ICON_PADDING) - ICON_PADDING)) 2,
       t + SELECTION_BORDER_PADDING) := by
    unfold calculateGridLayout
    rw [if_neg (by omega)]
  refine ⟨hcols, ?_, ?_, rfl⟩
  · rw [hlay]; split <;> omega
  · rw [hlay]
    set c : Int := if 1 < Int.tdiv (r - l) (iconSize + ICON_PADDING)
        then Int.tdiv (r - l) (iconSize + ICON_PADDING) else 1 with hc
    have hc1 : 1 ≤ c := by rw [hc]; split <;> omega
    exact tdiv_add_pred_eq_ceilDiv count c hc1

/-- Closed instance for `grid_layout_formulas`: a 240px rectangle with 64px
icons and 7 entries yields 3 columns and 3 rows in both layout routines. -/
theorem grid_layout_formulas_witness :
    ((0 : Int) ≤ 240 ∧ (0 : Int) ≤ 240 - 0 ∧ 0 < 7) ∧
    (calculateGridColumns 240 64 12 = max 1 (Int.tdiv 240 (64 + 12)) ∧
     (calculateGridLayout 0 40 240 7 64).1
       = max 1 (Int.tdiv (240 - 0) (64 + ICON_PADDING)) ∧
     (calculateGridLayout 0 40 240 7 64).2.1
       = ((7 ⌈/⌉ (calculateGridLayout 0 40 240 7 64).1.toNat : Nat) : Int) ∧
     calculateGridLayout 0 40 240 7 64 = calculateGridLayout 0 40 240 7 64) :=
  ⟨⟨by decide, by decide, by decide⟩,
   grid_layout_formulas 240 64 12 0 40 240 7 (by decide) (by decide) (by decide)⟩

/-! ## C3: alpha repair -/

theorem labelRegionRepair_of_pos (p : Pixel) (h : 0 < p.a) :
    labelRegionRepair p = p := by
  unfold labelRegionRepair
  rw [if_pos h]

theorem tabRegionRepair_of_pos (p : Pixel) (h : 0 < p.a) :
    tabRegionRepair p = p := by
  unfold tabRegionRepair
  rw [if_neg (by omega)]

/-- The `(BYTE)` wrap of a negative derived shadow alpha: a GDI-drawn pixel
with alpha 0 and luminance exactly 29 (here RGB 87/0/0) takes the
black-shadow branch, its derived alpha `(28 - 29) * 255 / 28 = -9` wraps to
`247`, and the premultiplied red channel becomes `87 * 247 / 255 = 84`. -/
theorem labelRegionRepair_byte_wrap :
    labelRegionRepair { a := 0, r := 87, g := 0, b := 0 }
      = { a := 247, r := 84, g := 0, b := 0 } := by
  decide

/-- C3: after the repair pass, every pixel of the tab-strip rectangle (whose
content the tab-bar `BitBlt` produced) is fully opaque, and every pixel that
already carried non-zero alpha from the `AlphaBlend` icon blend is returned
with its alpha and RGB channels untouched. -/
theorem alpha_repair_correct (tabRect : Rect) (labelRects : List Rect)
    (buf : Int → Int → Pixel) (x y x2 y2 : Int) (src : TabStripSource)
    (hin : inRect tabRect x y) (hbuf : buf x y = tabStripPixel src)
    (halpha : 0 < (buf x2 y2).a) :
    (repairBuffer tabRect labelRects buf x y).a = 255 ∧
    repairBuffer tabRect labelRects buf x2 y2 = buf x2 y2 := by
  constructor
  · unfold repairBuffer repairPixel
    rw [hbuf, decide_eq_true hin]
    have h255 : (tabRegionRepair (tabStripPixel src)).a = 255 := by
      cases src <;> simp [tabStripPixel, tabRegionRepair]
    simp only [if_true]
    split
    · rw [labelRegionRepair_of_pos _ (by omega)]
      exact h255
    · exact h255
  · unfold repairBuffer repairPixel
    have hTab : (if decide (inRect tabRect x2 y2) = true
        then tabRegionRepair (buf x2 y2) else buf x2 y2) = buf x2 y2 := by
      split
      · exact tabRegionRepair_of_pos _ halpha
      · rfl
    rw [hTab]
    split
    · exact labelRegionRepair_of_pos _ halpha
    · rfl

/-- Closed instance for `alpha_repair_correct`: on the demo frame buffer the
tab pixel at `(5, 5)` comes out fully opaque and the alpha-128 icon pixel at
`(70, 5)` is untouched. -/
theorem alpha_repair_correct_witness :
    (inRect demoTabRect 5 5 ∧
     demoBuf 5 5 = tabStripPixel TabStripSource.fillBackground ∧
     0 < (demoBuf 70 5).a) ∧
    ((repairBuffer demoTabRect [] demoBuf 5 5).a = 255 ∧
     repairBuffer demoTabRect [] demoBuf 70 5 = demoBuf 70 5) :=
  ⟨⟨by decide, by decide, by decide⟩,
   alpha_repair_correct demoTabRect [] demoBuf 5 5 70 5
     TabStripSource.fillBackground (by decide) (by decide) (by decide)⟩

/-! ## C1: scan behaviour on unreadable and dangling shortcuts -/

/-- Parsing drops exactly the unreadable shortcut files and keeps every
other entry, dangling target or not. -/
theorem filterMap_parseShortcut (l : List LnkFile) :
    l.filterMap parseShortcut = (l.filter fun f => f.readable).map mkShortcutEntry := by
  induction l with
  | nil => rfl
  | cons f fs ih =>
    by_cases h : f.readable
    · simp [parseShortcut, h, ih]
    · simp [parseShortcut, h, ih]

/-- C1 counterexample: on a folder with two valid shortcuts and one readable
shortcut whose target is missing, the scan yields THREE entries (the
dangling entry is kept, merely flagged invalid), not the two the claim
predicts, and the tab holds all three. -/
theorem scan_keeps_dangling_counterexample :
    (scanFolderForShortcuts gamesFolder).map ShortcutInfo.displayName
      = ["Alpha", "Broken", "Zeta"] ∧
    (scanFolderForShortcuts gamesFolder).length = 3 ∧
    ¬(scanFolderForShortcuts gamesFolder).length = 2 ∧
    ((scanFolderForShortcuts gamesFolder).filter fun e => !e.isValid).length = 1 ∧
    (scanTabs emptyRootFolder [gamesFolder]).map
      (fun tab => (tab.name, tab.shortcuts.length)) = [("Games", 3)] := by
  decide

/-- C1 amended: an entry is dropped from its tab only when the shortcut file
itself cannot be read or loaded, while scanning continues for the remaining
entries, which appear in filename-sorted order; an entry whose target is
missing is kept and flagged invalid; no tab is created for a folder whose
shortcut files are all unreadable (none parsable); and the two-valid-plus-
one-dangling folder yields one tab named `Games` with exactly three
entries. -/
theorem scan_drops_only_unreadable (folder : FolderFS) (tabName : String) :
    scanFolderForShortcuts folder
      = ((sortByFileName (folder.files.filter fun f => isShortcutFile f.name)).filter
          fun f => f.readable).map mkShortcutEntry ∧
    (buildTab tabName folder = none ↔ scanFolderForShortcuts folder = []) ∧
    ((scanFolderForShortcuts gamesFolder).filter fun e => !e.isValid).map
      ShortcutInfo.displayName = ["Broken"] ∧
    (scanTabs emptyRootFolder [gamesFolder]).map
      (fun tab => (tab.name, tab.shortcuts.map ShortcutInfo.displayName))
      = [("Games", ["Alpha", "Broken", "Zeta"])] := by
  refine ⟨filterMap_parseShortcut _, ?_, by decide, by decide⟩
  have hb : buildTab tabName folder
      = if scanFolderForShortcuts folder = [] then none
        else some { name := tabName, shortcuts := scanFolderForShortcuts folder } := rfl
  rw [hb]
  split <;> simp_all

/-! ## C7: confirm / launch behaviour -/

/-- `LaunchSelectedIcon` on a valid selection: hide on success, modal error
naming the entry on failure; the state is returned untouched either way. -/
theorem launch_core (s : WMState) (ok : Bool)
    (hv : s.isValidTabState = true) (h0 : 0 ≤ s.selectedIconIndex)
    (h1 : s.selectedIconIndex < s.activeCount) :
    launchSelectedIcon ok s =
      (s, if ok then
            { invalidate := false, save := false, hideWindow := true, errorMsg := none }
          else
            { invalidate := false, save := false, hideWindow := false,
              errorMsg := some ("Failed to launch: "
                ++ (s.activeShortcuts.getD s.selectedIconIndex.toNat
                     emptyShortcut).displayName) }) := by
  unfold launchSelectedIcon
  rw [if_neg (by simp [hv]; omega)]
  cases ok
  · rfl
  · rfl

/-- C7: a confirm action (Enter, controller A via `LaunchSelectedIcon`,
double-click) on a valid selection hides the window when the launch
succeeds; when it fails, a modal error naming the entry by display name is
surfaced, the window is not hidden, and the navigation state (active tab,
selected index, scroll offset) is unchanged. -/
theorem confirm_launch_behaviour (g : Geometry) (s : WMState) (ok : Bool)
    (hv : s.isValidTabState = true) (h0 : 0 ≤ s.selectedIconIndex)
    (h1 : s.selectedIconIndex < s.activeCount) :
    (launchSelectedIcon ok s).1 = s ∧
    (launchSelectedIcon ok s).2.hideWindow = ok ∧
    (launchSelectedIcon ok s).2.errorMsg
      = (if ok then none
         else some ("Failed to launch: "
            ++ (s.activeShortcuts.getD s.selectedIconIndex.toNat
                 emptyShortcut).displayName)) ∧
    ((handleKeyDown g Key.enter ok s).1.activeTabIndex = s.activeTabIndex ∧
     (handleKeyDown g Key.enter ok s).1.selectedIconIndex = s.selectedIconIndex ∧
     (handleKeyDown g Key.enter ok s).1.scrollOffset = s.scrollOffset ∧
     (handleKeyDown g Key.enter ok s).2.hideWindow = ok ∧
     (handleKeyDown g Key.enter ok s).2.errorMsg
       = (if ok then none
          else some ("Failed to launch: "
             ++ (s.activeShortcuts.getD s.selectedIconIndex.toNat
                  emptyShortcut).displayName))) ∧
    ((handleDoubleClick g s.selectedIconIndex ok s).1.activeTabIndex = s.activeTabIndex ∧
     (handleDoubleClick g s.selectedIconIndex ok s).1.selectedIconIndex = s.selectedIconIndex ∧
     (handleDoubleClick g s.selectedIconIndex ok s).1.scrollOffset = s.scrollOffset ∧
     (handleDoubleClick g s.selectedIconIndex ok s).2.hideWindow = ok ∧
     (handleDoubleClick g s.selectedIconIndex ok s).2.errorMsg
       = (if ok then none
          else some ("Failed to launch: "
             ++ (s.activeShortcuts.getD s.selectedIconIndex.toNat
                  emptyShortcut).displayName))) := by
  have hlc := launch_core s ok hv h0 h1
  have hsel : s.selectedIconIndex ≠ -1 := by omega
  -- the Enter path reduces to LaunchSelectedIcon on the state with the
  -- keyboard-navigation flag set
  have hkd : handleKeyDown g Key.enter ok s
      = launchSelectedIcon ok { s with usingKeyboardNavigation := true } := by
    unfold handleKeyDown
    rw [if_neg (by simp [hv])]
    rw [if_neg (by decide)]
    dsimp only
    rw [if_neg hsel]
    unfold keyNavStep
    rw [if_pos rfl]
  have hlc2 := launch_core { s with usingKeyboardNavigation := true } ok hv h0 h1
  -- the double-click path: the click re-selects the already selected icon,
  -- then launches it
  have hvu : s.tabs ≠ [] ∧ 0 ≤ s.activeTabIndex ∧ s.activeTabIndex < s.tabCount ∧
      s.activeShortcuts ≠ [] := by
    have h := hv
    unfold WMState.isValidTabState at h
    exact of_decide_eq_true h
  have hssi : setSelectedIcon g s.selectedIconIndex false s
      = ({ s with selectedIconIndex := s.selectedIconIndex,
                  lastSelectedIconIndex := s.selectedIconIndex,
                  usingKeyboardNavigation := false },
         { invalidate := true, save := false, hideWindow := false, errorMsg := none }) := by
    unfold setSelectedIcon
    rw [if_neg (by push_neg; exact ⟨hvu.1, by omega⟩)]
    rw [if_neg hvu.2.2.2]
    rw [if_neg (by omega)]
    dsimp only
    rw [if_neg (by simp [hsel]), if_pos hsel, if_neg (by simp)]
    refine Prod.ext rfl ?_
    simp [noEffects, hsel]
  have hlc3 := launch_core
    { s with selectedIconIndex := s.selectedIconIndex,
             lastSelectedIconIndex := s.selectedIconIndex,
             usingKeyboardNavigation := false } ok hv h0 h1
  have hdc : handleDoubleClick g s.selectedIconIndex ok s
      = (({ s with selectedIconIndex := s.selectedIconIndex,
                   lastSelectedIconIndex := s.selectedIconIndex,
                   usingKeyboardNavigation := false } : WMState),
         { invalidate := true, save := false, hideWindow := ok,
           errorMsg := (if ok then none
             else some ("Failed to launch: "
                ++ (s.activeShortcuts.getD s.selectedIconIndex.toNat
                     emptyShortcut).displayName)) }) := by
    unfold handleDoubleClick
    rw [if_neg (by simp [hv]), if_pos ⟨h0, h1⟩]
    dsimp only
    rw [hssi]
    dsimp only
    rw [hlc3]
    cases ok <;> rfl
  refine ⟨?_, ?_, ?_, ?_, ?_⟩
  · cases ok <;> (rw [hlc]; try rfl)
  · cases ok <;> (rw [hlc]; try rfl)
  · cases ok <;> (rw [hlc]; try rfl)
  · cases ok <;> rw [hkd, hlc2] <;> exact ⟨rfl, rfl, rfl, rfl, rfl⟩
  · cases ok <;> rw [hdc] <;> exact ⟨rfl, rfl, rfl, rfl, rfl⟩

/-- Closed instance for `confirm_launch_behaviour`: launching entry `G` of
the demo tab. -/
theorem confirm_launch_behaviour_witness :
    (demoState7.isValidTabState = true ∧ (0 : Int) ≤ demoState7.selectedIconIndex ∧
     demoState7.selectedIconIndex < demoState7.activeCount) ∧
    (launchSelectedIcon false demoState7).1 = demoState7 ∧
    (launchSelectedIcon false demoState7).2.hideWindow = false ∧
    (launchSelectedIcon false demoState7).2.errorMsg = some "Failed to launch: G" ∧
    (launchSelectedIcon true demoState7).2.hideWindow = true := by
  have hf := confirm_launch_behaviour demoGeo demoState7 false
    (by decide) (by decide) (by decide)
  have ht := confirm_launch_behaviour demoGeo demoState7 true
    (by decide) (by decide) (by decide)
  refine ⟨⟨by decide, by decide, by decide⟩, hf.1, hf.2.1, ?_, ht.2.1⟩
  rw [hf.2.2.1]
  decide

/-! ## C6: down navigation on a ragged final row -/

/-- `EnsureSelectedIconVisible` only ever adjusts the scroll offset; every
other state field is returned unchanged. -/
theorem ensure_preserves (g : Geometry) (s : WMState) :
    (ensureSelectedIconVisible g s).tabs = s.tabs ∧
    (ensureSelectedIconVisible g s).activeTabIndex = s.activeTabIndex ∧
    (ensureSelectedIconVisible g s).selectedIconIndex = s.selectedIconIndex ∧
    (ensureSelectedIconVisible g s).lastSelectedIconIndex = s.lastSelectedIconIndex ∧
    (ensureSelectedIconVisible g s).usingKeyboardNavigation = s.usingKeyboardNavigation ∧
    (ensureSelectedIconVisible g s).tabBufferDirty = s.tabBufferDirty := by
  unfold ensureSelectedIconVisible
  dsimp only
  split_ifs <;> exact ⟨rfl, rfl, rfl, rfl, rfl, rfl⟩

/-- The `VK_DOWN` target stays in range, and lands on the last valid item of
the next row exactly when there is no item directly below but a next row
exists (`nextRowStart < total`, i.e. `tdiv sel cols * cols + cols < total`). -/
theorem downNavTarget_bounds (cols total sel : Int)
    (hc : 1 ≤ cols) (h0 : 0 ≤ sel) (h1 : sel < total) :
    (0 ≤ downNavTarget cols total sel ∧ downNavTarget cols total sel < total) ∧
    (total ≤ sel + cols → Int.tdiv sel cols * cols + cols < total →
      downNavTarget cols total sel = total - 1) ∧
    (total ≤ sel + cols → total ≤ Int.tdiv sel cols * cols + cols →
      downNavTarget cols total sel = sel) := by
  obtain ⟨hsw1, hsw2⟩ := tdiv_sandwich sel cols h0 (by omega)
  rw [mul_comm] at hsw1 hsw2
  unfold downNavTarget
  dsimp only
  have hexp : (Int.tdiv sel cols + 1) * cols = Int.tdiv sel cols * cols + cols := by
    ring
  rw [hexp]
  split_ifs with hbelow hnext
  · exact ⟨⟨by omega, hbelow⟩, fun ha _ => by omega, fun ha _ => by omega⟩
  · refine ⟨⟨by omega, by omega⟩, fun ha hb => by omega, fun _ hb => by omega⟩
  · exact ⟨⟨h0, h1⟩, fun _ hb => by omega, fun _ _ => rfl⟩

/-- A pure downward controller move computes the same target as the
`VK_DOWN` key path. -/
theorem controllerDownTarget_eq (cols total sel : Int) :
    controllerNavTarget cols total sel 0 1 = downNavTarget cols total sel := by
  unfold controllerNavTarget downNavTarget
  norm_num

/-- The active entry list and validity flag ignore the keyboard-navigation
flag. -/
theorem activeCount_kb_update (s : WMState) (b : Bool) :
    WMState.activeCount { s with usingKeyboardNavigation := b } = s.activeCount := rfl

/-- The selection written by `SetSelectedIcon` when its guards pass. -/
theorem setSelectedIcon_sel (g : Geometry) (t : Int) (k : Bool) (s : WMState)
    (h1 : s.tabs ≠ []) (h2 : s.activeTabIndex < s.tabCount)
    (h3 : s.activeShortcuts ≠ []) (h4 : -1 ≤ t) (h5 : t < s.activeCount) :
    ((setSelectedIcon g t k s).1).selectedIconIndex = t := by
  unfold setSelectedIcon
  rw [if_neg (by push_neg; exact ⟨h1, by omega⟩), if_neg h3, if_neg (by omega)]
  dsimp only
  split_ifs <;> (try rw [(ensure_preserves g _).2.2.1]) <;> rfl

/-- C6: in a grid with a ragged final row, a directional `down` from a
selection with no item directly below moves to the last valid item of the
next row when one exists, never yields an out-of-range index, and from
index 6 of a 7-item 3-column grid leaves index 6 selected — both on the
keyboard path (`HandleKeyDown`, `VK_DOWN`) and on the controller path
(`HandleControllerNavigation` with a downward move). -/
theorem down_navigation (g : Geometry) (s : WMState)
    (hv : s.isValidTabState = true) (h0 : 0 ≤ s.selectedIconIndex)
    (h1 : s.selectedIconIndex < s.activeCount)
    (hnb : s.activeCount ≤ s.selectedIconIndex + g.cols) :
    let target := downNavTarget g.cols s.activeCount s.selectedIconIndex
    (0 ≤ target ∧ target < s.activeCount) ∧
    ((handleKeyDown g Key.down false s).1.selectedIconIndex = target ∧
     (handleControllerNavigation g 0 1 s).1.selectedIconIndex = target) ∧
    (Int.tdiv s.selectedIconIndex g.cols * g.cols + g.cols < s.activeCount →
      target = s.activeCount - 1) ∧
    (s.activeCount ≤ Int.tdiv s.selectedIconIndex g.cols * g.cols + g.cols →
      target = s.selectedIconIndex) := by
  intro target
  have hc := cols_pos g
  have hb := downNavTarget_bounds g.cols s.activeCount s.selectedIconIndex hc h0 h1
  have hsel : s.selectedIconIndex ≠ -1 := by omega
  have hvu : s.tabs ≠ [] ∧ 0 ≤ s.activeTabIndex ∧ s.activeTabIndex < s.tabCount ∧
      s.activeShortcuts ≠ [] := by
    have h := hv
    unfold WMState.isValidTabState at h
    exact of_decide_eq_true h
  have hkdown : (handleKeyDown g Key.down false s).1.selectedIconIndex = target := by
    unfold handleKeyDown
    rw [if_neg (by simp [hv]), if_neg (by decide)]
    dsimp only
    rw [if_neg hsel]
    unfold keyNavStep
    rw [if_neg (by decide)]
    dsimp only
    simp only [activeCount_kb_update]
    have hknt : keyNavTarget g.cols s.activeCount s.selectedIconIndex Key.down
        = target := rfl
    rw [hknt]
    by_cases hchg : target = s.selectedIconIndex
    · rw [if_neg (by simpa using hchg)]
      exact hchg.symm
    · rw [if_pos (by simpa using hchg)]
      exact setSelectedIcon_sel g target true _ hvu.1 hvu.2.2.1 hvu.2.2.2
        (by omega) (by exact hb.1.2)
  have hcdown : (handleControllerNavigation g 0 1 s).1.selectedIconIndex = target := by
    unfold handleControllerNavigation
    rw [if_neg (by simp [hv])]
    dsimp only
    rw [if_neg hsel]
    unfold controllerNavStep
    dsimp only
    simp only [activeCount_kb_update]
    rw [controllerDownTarget_eq g.cols s.activeCount s.selectedIconIndex]
    by_cases hchg : target = s.selectedIconIndex
    · rw [if_neg (by simpa using hchg)]
      exact hchg.symm
    · rw [if_pos (by simpa using hchg)]
      exact setSelectedIcon_sel g target true _ hvu.1 hvu.2.2.1 hvu.2.2.2
        (by omega) (by exact hb.1.2)
  exact ⟨hb.1, ⟨hkdown, hcdown⟩, fun hx => hb.2.1 hnb hx, fun hx => hb.2.2 hnb hx⟩

/-- Closed instance for `down_navigation`: pressing down from index 6 of the
7-item 3-column demo grid keeps index 6 selected on both input paths. -/
theorem down_navigation_witness :
    (demoState7.isValidTabState = true ∧ (0 : Int) ≤ demoState7.selectedIconIndex ∧
     demoState7.selectedIconIndex < demoState7.activeCount ∧
     demoState7.activeCount ≤ demoState7.selectedIconIndex + demoGeo.cols) ∧
    (handleKeyDown demoGeo Key.down false demoState7).1.selectedIconIndex = 6 ∧
    (handleControllerNavigation demoGeo 0 1 demoState7).1.selectedIconIndex = 6 := by
  have h := down_navigation demoGeo demoState7 (by decide) (by decide)
    (by decide) (by decide)
  refine ⟨⟨by decide, by decide, by decide, by decide⟩, ?_, ?_⟩
  · rw [h.2.1.1]
    decide
  · rw [h.2.1.2]
    decide

/-! ## C8: controller input merging -/

/-- C8 counterexample: with D-pad right and D-pad down both newly pressed
(and the stick deflected up-left), the merge yields the axis-independent
direction `(1, 1)`, but the frame moves the selection of the 9-item
3-column grid from index 0 to index 3 — the vertical step only — not to
index 4 as applying both steps would. -/
theorem controller_diagonal_counterexample :
    controllerDirection demoFrameDiag = (1, 1) ∧
    (handleControllerNavFrame demoGeo demoFrameDiag demoState9).1.selectedIconIndex = 3 ∧
    ¬((handleControllerNavFrame demoGeo demoFrameDiag demoState9).1.selectedIconIndex = 4) := by
  decide

/-- C8 amended: when any D-pad direction is newly pressed, the digital input
takes priority over the analog stick and both direction components are
captured axis-independently in the merged frame direction; but the two
movement blocks of `HandleControllerNavigation` both start from the
original index, so when the vertical component applies it overwrites the
horizontal one and the selection moves by exactly one row (no diagonal
step).  When only the analog stick is used, movement resolves to the single
axis with larger raw magnitude. -/
theorem controller_merge_amended (f : ControllerFrame) (g : Geometry) (s : WMState)
    (mx : Int) (hv : s.isValidTabState = true) (h0 : 0 ≤ s.selectedIconIndex)
    (hdown : s.selectedIconIndex + g.cols < s.activeCount) :
    ((f.dpadLeft || f.dpadRight || f.dpadUp || f.dpadDown) = true →
      controllerDirection f =
        ((if f.dpadLeft then -1 else if f.dpadRight then 1 else 0),
         (if f.dpadUp then -1 else if f.dpadDown then 1 else 0))) ∧
    ((f.dpadLeft || f.dpadRight || f.dpadUp || f.dpadDown) = false →
      ((controllerDirection f).1 = 0 ∨ (controllerDirection f).2 = 0)) ∧
    ((f.dpadLeft || f.dpadRight || f.dpadUp || f.dpadDown) = false →
      |f.rawX| < |f.rawY| → (controllerDirection f).1 = 0) ∧
    (handleControllerNavigation g mx 1 s).1.selectedIconIndex
      = s.selectedIconIndex + g.cols := by
  have hc := cols_pos g
  have hsel : s.selectedIconIndex ≠ -1 := by omega
  have hvu : s.tabs ≠ [] ∧ 0 ≤ s.activeTabIndex ∧ s.activeTabIndex < s.tabCount ∧
      s.activeShortcuts ≠ [] := by
    have h := hv
    unfold WMState.isValidTabState at h
    exact of_decide_eq_true h
  refine ⟨?_, ?_, ?_, ?_⟩
  · intro hd
    unfold controllerDirection
    rw [if_pos hd]
  · intro hd
    unfold controllerDirection
    rw [if_neg (by simp [hd])]
    split_ifs <;> simp
  · intro hd hmag
    unfold controllerDirection
    rw [if_neg (by simp [hd]), if_pos hmag]
  · have ht : controllerNavTarget g.cols s.activeCount s.selectedIconIndex mx 1
        = s.selectedIconIndex + g.cols := by
      unfold controllerNavTarget
      dsimp only
      rw [if_neg (by norm_num), if_pos rfl, if_pos hdown]
    unfold handleControllerNavigation
    rw [if_neg (by simp [hv])]
    dsimp only
    rw [if_neg hsel]
    unfold controllerNavStep
    dsimp only
    simp only [activeCount_kb_update]
    rw [ht]
    rw [if_pos (by omega)]
    refine setSelectedIcon_sel g _ true _ hvu.1 ?_ hvu.2.2.2 ?_ ?_
    · exact hvu.2.2.1
    · omega
    · exact hdown

/-- Closed instance for `controller_merge_amended`: a down-right D-pad frame
on the 9-item demo grid. -/
theorem controller_merge_amended_witness :
    ((demoFrameDiag.dpadLeft || demoFrameDiag.dpadRight || demoFrameDiag.dpadUp ||
        demoFrameDiag.dpadDown) = true ∧
     demoState9.isValidTabState = true ∧ (0 : Int) ≤ demoState9.selectedIconIndex ∧
     demoState9.selectedIconIndex + demoGeo.cols < demoState9.activeCount) ∧
    controllerDirection demoFrameDiag = (1, 1) ∧
    (handleControllerNavigation demoGeo 1 1 demoState9).1.selectedIconIndex
      = demoState9.selectedIconIndex + demoGeo.cols := by
  have h := controller_merge_amended demoFrameDiag demoGeo demoState9 1
    (by decide) (by decide) (by decide)
  refine ⟨⟨by decide, by decide, by decide, by decide⟩, ?_, h.2.2.2⟩
  rw [h.1 (by decide)]
  decide

/-! ## Machine invariant: preservation lemmas -/

/-- `LaunchSelectedIcon` never mutates the navigation state. -/
theorem launch_fst (ok : Bool) (s : WMState) : (launchSelectedIcon ok s).1 = s := by
  unfold launchSelectedIcon
  split_ifs <;> rfl

/-- `EnsureSelectedIconVisible` keeps the scroll offset inside
`[0, maxScroll]` whenever it started there. -/
theorem ensure_scroll (g : Geometry) (s : WMState)
    (h0 : 0 ≤ s.scrollOffset) (h1 : s.scrollOffset ≤ g.maxScroll s.activeCount) :
    0 ≤ (ensureSelectedIconVisible g s).scrollOffset ∧
    (ensureSelectedIconVisible g s).scrollOffset ≤ g.maxScroll s.activeCount := by
  have hms : g.maxScroll s.activeCount
      = max 0 (Int.tdiv (s.activeCount + g.cols - 1) g.cols *
          (g.iconSize + LABEL_HEIGHT + g.vpad + g.spacingV) - g.availH) := rfl
  rw [hms] at h1 ⊢
  unfold ensureSelectedIconVisible
  dsimp only
  split_ifs with hg hA hB
  · exact ⟨h0, h1⟩
  · dsimp only
    omega
  · dsimp only
    omega
  · exact ⟨h0, h1⟩

/-- `EnsureSelectedIconVisible` preserves the whole machine invariant. -/
theorem ensure_inv (g : Geometry) (s : WMState) (h : Inv g s) :
    Inv g (ensureSelectedIconVisible g s) := by
  obtain ⟨h1, h2, h3, h4⟩ := h
  have hp := ensure_preserves g s
  have hsc := ensure_scroll g s h4.1 h4.2
  have hac : (ensureSelectedIconVisible g s).activeCount = s.activeCount := by
    unfold WMState.activeCount WMState.activeShortcuts
    rw [hp.1, hp.2.1]
  have htc : (ensureSelectedIconVisible g s).tabCount = s.tabCount := by
    unfold WMState.tabCount
    rw [hp.1]
  refine ⟨?_, ?_, ?_, ?_⟩
  · rw [hp.2.2.1, hac]; exact h1
  · rw [htc, hp.2.1, hp.1]; exact h2
  · rw [hp.2.2.2.1]; exact h3
  · rw [hac]; exact hsc

/-- The first-visible-icon computation lands in the valid index range. -/
theorem firstVisible_bounds (g : Geometry) (count scroll : Int) (hc : 1 ≤ count) :
    0 ≤ firstVisibleIconIndex g count scroll ∧
    firstVisibleIconIndex g count scroll < count := by
  unfold firstVisibleIconIndex
  dsimp only
  omega

/-- A non-empty active entry list means a positive entry count. -/
theorem activeCount_pos (s : WMState) (h : s.activeShortcuts ≠ []) :
    1 ≤ s.activeCount := by
  unfold WMState.activeCount
  have := List.length_pos.mpr h
  omega

/-- Invariant of the state written by the main path of `SetSelectedIcon`. -/
theorem inv_mk (g : Geometry) (s : WMState) (i l2 : Int) (k : Bool)
    (h : Inv g s) (hi : i = -1 ∨ (0 ≤ i ∧ i < s.activeCount)) (hl : -1 ≤ l2) :
    Inv g { s with selectedIconIndex := i, lastSelectedIconIndex := l2,
                   usingKeyboardNavigation := k } :=
  ⟨hi, h.2.1, hl, h.2.2.2⟩

/-- `SetSelectedIcon` preserves the machine invariant. -/
theorem setSelectedIcon_inv (g : Geometry) (i : Int) (k : Bool) (s : WMState)
    (h : Inv g s) : Inv g (setSelectedIcon g i k s).1 := by
  have hs' : -1 ≤ s.selectedIconIndex := by rcases h.1 with h' | h' <;> omega
  have h3 := h.2.2.1
  unfold setSelectedIcon
  split_ifs with hg1 hg2 hg3
  · exact h
  · exact h
  · exact h
  all_goals push_neg at hg3
  all_goals
    first
      | exact ensure_inv g _ (inv_mk g s i _ k h (by omega) (by omega))
      | exact inv_mk g s i _ k h (by omega) (by omega)

/-- `SetActiveTab` preserves the machine invariant. -/
theorem setActiveTab_inv (g : Geometry) (i : Int) (s : WMState)
    (h : Inv g s) : Inv g (setActiveTab i s).1 := by
  unfold setActiveTab
  split_ifs with hg1 hg2
  · exact h
  · exact h
  · push_neg at hg1
    exact ⟨Or.inl rfl, ⟨hg1.1, fun _ => hg1.2⟩, le_refl (-1),
           le_refl 0, maxScroll_nonneg g _⟩

/-- The shared scroll body preserves the machine invariant. -/
theorem scrollCore_inv (g : Geometry) (d : Int) (s : WMState)
    (hval : s.isValidTabState = true) (h : Inv g s) :
    Inv g (scrollCore g d s).1 := by
  have hvu : s.tabs ≠ [] ∧ 0 ≤ s.activeTabIndex ∧ s.activeTabIndex < s.tabCount ∧
      s.activeShortcuts ≠ [] := by
    have hx := hval
    unfold WMState.isValidTabState at hx
    exact of_decide_eq_true hx
  have hcnt := activeCount_pos s hvu.2.2.2
  have hm := maxScroll_nonneg g s.activeCount
  unfold scrollCore
  dsimp only
  split_ifs with hch
  · have hfv := firstVisible_bounds g s.activeCount
      (max 0 (min (s.scrollOffset + d) (g.maxScroll s.activeCount))) hcnt
    refine ⟨Or.inr hfv, h.2.1, h.2.2.1, ?_, ?_⟩
    · show (0 : Int) ≤ max 0 (min (s.scrollOffset + d) (g.maxScroll s.activeCount))
      omega
    · show max 0 (min (s.scrollOffset + d) (g.maxScroll s.activeCount))
        ≤ g.maxScroll s.activeCount
      omega
  · exact h

theorem handleMouseWheel_inv (g : Geometry) (d : Int) (s : WMState)
    (h : Inv g s) : Inv g (handleMouseWheel g d s).1 := by
  unfold handleMouseWheel
  split_ifs with hval
  all_goals
    first
      | exact h
      | exact scrollCore_inv g _ s (by simpa using hval) h

theorem handleJoystickScroll_inv (g : Geometry) (d : Int) (s : WMState)
    (h : Inv g s) : Inv g (handleJoystickScroll g d s).1 := by
  unfold handleJoystickScroll
  split_ifs with hval
  all_goals
    first
      | exact h
      | exact scrollCore_inv g _ s (by simpa using hval) h

theorem keyNavStep_inv (g : Geometry) (k : Key) (ok : Bool) (s : WMState)
    (h : Inv g s) : Inv g (keyNavStep g k ok s).1 := by
  unfold keyNavStep
  split_ifs with he
  · rw [launch_fst]
    exact h
  · dsimp only
    split_ifs with hne
    all_goals
      first
        | exact h
        | exact setSelectedIcon_inv g _ true s h

theorem controllerNavStep_inv (g : Geometry) (mx my : Int) (s : WMState)
    (h : Inv g s) : Inv g (controllerNavStep g mx my s).1 := by
  unfold controllerNavStep
  dsimp only
  split_ifs with hne
  all_goals
    first
      | exact h
      | exact setSelectedIcon_inv g _ true s h

theorem handleKeyDown_inv (g : Geometry) (k : Key) (ok : Bool) (s : WMState)
    (h : Inv g s) : Inv g (handleKeyDown g k ok s).1 := by
  unfold handleKeyDown
  dsimp only
  simp only [activeCount_kb_update]
  split_ifs
  all_goals
    first
      | exact h
      | exact setActiveTab_inv g _ s h
      | exact setSelectedIcon_inv g _ true _ h
      | exact keyNavStep_inv g _ ok _ h
      | exact keyNavStep_inv g _ ok _
          ⟨(by have h3 := h.2.2.1; omega : s.lastSelectedIconIndex = -1 ∨
              (0 ≤ s.lastSelectedIconIndex ∧ s.lastSelectedIconIndex < s.activeCount)),
           h.2.1, h.2.2.1, h.2.2.2⟩

theorem handleControllerNavigation_inv (g : Geometry) (mx my : Int) (s : WMState)
    (h : Inv g s) : Inv g (handleControllerNavigation g mx my s).1 := by
  unfold handleControllerNavigation
  dsimp only
  simp only [activeCount_kb_update]
  split_ifs
  all_goals
    first
      | exact h
      | exact setSelectedIcon_inv g _ true _ h
      | exact controllerNavStep_inv g _ _ _ h
      | exact controllerNavStep_inv g _ _ _
          ⟨(by have h3 := h.2.2.1; omega : s.lastSelectedIconIndex = -1 ∨
              (0 ≤ s.lastSelectedIconIndex ∧ s.lastSelectedIconIndex < s.activeCount)),
           h.2.1, h.2.2.1, h.2.2.2⟩

theorem handleDoubleClick_inv (g : Geometry) (i : Int) (ok : Bool) (s : WMState)
    (h : Inv g s) : Inv g (handleDoubleClick g i ok s).1 := by
  unfold handleDoubleClick
  split_ifs
  all_goals
    first
      | exact h
      | (dsimp only
         rw [launch_fst]
         exact setSelectedIcon_inv g i false s h)

/-- Every machine step preserves the invariant. -/
theorem step_inv (g : Geometry) (e : Event) (s : WMState)
    (h : Inv g s) : Inv g (step g e s).1 := by
  cases e with
  | selectIcon i k => exact setSelectedIcon_inv g i k s h
  | tabClick i =>
      show Inv g (if 0 ≤ i ∧ i < s.tabCount then setActiveTab i s else (s, noEffects)).1
      split_ifs with hi
      · exact setActiveTab_inv g i s h
      · exact h
  | mouseWheel d => exact handleMouseWheel_inv g d s h
  | joyScroll d => exact handleJoystickScroll_inv g d s h
  | keyDown k ok => exact handleKeyDown_inv g k ok s h
  | controller f =>
      show Inv g (handleControllerNavFrame g f s).1
      unfold handleControllerNavFrame
      split_ifs with hf
      · dsimp only
        exact handleControllerNavigation_inv g _ _ s h
      · exact h
  | controllerA ok =>
      show Inv g (launchSelectedIcon ok s).1
      rw [launch_fst]
      exact h
  | doubleClick i ok => exact handleDoubleClick_inv g i ok s h
  | resize =>
      exact ⟨Or.inl rfl, h.2.1, h.2.2.1, le_refl 0, maxScroll_nonneg g _⟩

/-- The freshly loaded launcher satisfies the invariant. -/
theorem init_inv (g : Geometry) (tabs : List TabInfo) (saved : Int) :
    Inv g (initState tabs saved) := by
  unfold initState
  dsimp only
  split_ifs with hs
  · exact ⟨Or.inl rfl, ⟨hs.2.1, fun _ => hs.2.2⟩, le_refl (-1),
           le_refl 0, maxScroll_nonneg g _⟩
  · refine ⟨Or.inl rfl, ⟨le_refl 0, fun hne => ?_⟩, le_refl (-1),
            le_refl 0, maxScroll_nonneg g _⟩
    show (0 : Int) < (tabs.length : Int)
    have hlen : 0 < tabs.length := List.length_pos.mpr (by exact hne)
    omega

/-- Every reachable state of the navigation machine satisfies the
invariant. -/
theorem reachable_inv (g : Geometry) (tabs : List TabInfo) (s : WMState)
    (hr : Reachable g tabs s) : Inv g s := by
  induction hr with
  | init saved => exact init_inv g tabs saved
  | next e hr ih => exact step_inv g e _ ih

/-! ## C2: selection bounds -/

/-- C2: at every reachable state of the navigation machine the selected icon
index is `-1` or a valid index into the active tab's entry list, and an
effective tab switch (valid index different from the active tab) leaves the
selected index equal to `-1`. -/
theorem selection_bounds (g : Geometry) (tabs : List TabInfo) (s : WMState) (i : Int)
    (hr : Reachable g tabs s) (hi0 : 0 ≤ i) (hi1 : i < s.tabCount)
    (hne : i ≠ s.activeTabIndex) :
    (s.selectedIconIndex = -1 ∨
      (0 ≤ s.selectedIconIndex ∧ s.selectedIconIndex < s.activeCount)) ∧
    ((setActiveTab i s).1).selectedIconIndex = -1 := by
  refine ⟨(reachable_inv g tabs s hr).1, ?_⟩
  unfold setActiveTab
  rw [if_neg (by omega), if_neg (by omega)]

/-- Closed instance for `selection_bounds`: the freshly loaded demo launcher
and a switch to tab 1. -/
theorem selection_bounds_witness :
    ((0 : Int) ≤ 1 ∧ (1 : Int) < (initState demoTabs 0).tabCount ∧
     (1 : Int) ≠ (initState demoTabs 0).activeTabIndex) ∧
    ((initState demoTabs 0).selectedIconIndex = -1 ∨
      (0 ≤ (initState demoTabs 0).selectedIconIndex ∧
       (initState demoTabs 0).selectedIconIndex < (initState demoTabs 0).activeCount)) ∧
    ((setActiveTab 1 (initState demoTabs 0)).1).selectedIconIndex = -1 :=
  ⟨⟨by decide, by decide, by decide⟩,
   selection_bounds demoGeo demoTabs (initState demoTabs 0) 1
     (Reachable.init 0) (by decide) (by decide) (by decide)⟩

/-! ## C5: scroll clamping and zero-delta no-op -/

/-- The scroll body always leaves the offset at exactly the clamp of
`old + delta` to `[0, maxScroll]`. -/
theorem scrollCore_offset (g : Geometry) (d : Int) (s : WMState) :
    ((scrollCore g d s).1).scrollOffset
      = max 0 (min (s.scrollOffset + d) (g.maxScroll s.activeCount)) := by
  unfold scrollCore
  dsimp only
  split_ifs with hch
  · rfl
  · show s.scrollOffset = max 0 (min (s.scrollOffset + d) (g.maxScroll s.activeCount))
    omega

/-- A zero pixel delta is a complete no-op when the offset is in bounds. -/
theorem scrollCore_zero (g : Geometry) (s : WMState)
    (h0 : 0 ≤ s.scrollOffset) (h1 : s.scrollOffset ≤ g.maxScroll s.activeCount) :
    scrollCore g 0 s = (s, noEffects) := by
  unfold scrollCore
  dsimp only
  rw [if_neg (by omega)]

/-- C5: on every reachable state with a valid tab, applying a mouse-wheel or
joystick scroll delta leaves the scroll offset at exactly the clamp of
`old + scaledDelta` to `[0, maxScroll]`, where
`maxScroll = max(0, total content height - visible height)`; and a zero
delta changes nothing and triggers no redraw, no save, no effect at all. -/
theorem scroll_clamp_and_zero_noop (g : Geometry) (tabs : List TabInfo)
    (s : WMState) (delta : Int) (hr : Reachable g tabs s)
    (hv : s.isValidTabState = true) :
    ((handleMouseWheel g delta s).1).scrollOffset
      = max 0 (min (s.scrollOffset + Int.tdiv (-delta) WHEEL_DELTA * g.mouseSpeed)
          (max 0 (g.rowsFor s.activeCount * g.rowHeight - g.availH))) ∧
    (0 ≤ ((handleMouseWheel g delta s).1).scrollOffset ∧
      ((handleMouseWheel g delta s).1).scrollOffset
        ≤ max 0 (g.rowsFor s.activeCount * g.rowHeight - g.availH)) ∧
    ((handleJoystickScroll g delta s).1).scrollOffset
      = max 0 (min (s.scrollOffset + delta)
          (max 0 (g.rowsFor s.activeCount * g.rowHeight - g.availH))) ∧
    (0 ≤ ((handleJoystickScroll g delta s).1).scrollOffset ∧
      ((handleJoystickScroll g delta s).1).scrollOffset
        ≤ max 0 (g.rowsFor s.activeCount * g.rowHeight - g.availH)) ∧
    handleMouseWheel g 0 s = (s, noEffects) ∧
    handleJoystickScroll g 0 s = (s, noEffects) := by
  have hInv := reachable_inv g tabs s hr
  have hms : g.maxScroll s.activeCount
      = max 0 (g.rowsFor s.activeCount * g.rowHeight - g.availH) := rfl
  have hm := maxScroll_nonneg g s.activeCount
  have hwo : ((handleMouseWheel g delta s).1).scrollOffset
      = max 0 (min (s.scrollOffset + Int.tdiv (-delta) WHEEL_DELTA * g.mouseSpeed)
          (g.maxScroll s.activeCount)) := by
    unfold handleMouseWheel
    rw [if_neg (by simp [hv])]
    exact scrollCore_offset g _ s
  have hjo : ((handleJoystickScroll g delta s).1).scrollOffset
      = max 0 (min (s.scrollOffset + delta) (g.maxScroll s.activeCount)) := by
    unfold handleJoystickScroll
    rw [if_neg (by simp [hv])]
    exact scrollCore_offset g _ s
  have hz : Int.tdiv (-(0 : Int)) WHEEL_DELTA * g.mouseSpeed = 0 := by
    norm_num
  have hwz : handleMouseWheel g 0 s = (s, noEffects) := by
    unfold handleMouseWheel
    rw [if_neg (by simp [hv]), hz]
    exact scrollCore_zero g s hInv.2.2.2.1 hInv.2.2.2.2
  have hjz : handleJoystickScroll g 0 s = (s, noEffects) := by
    unfold handleJoystickScroll
    rw [if_neg (by simp [hv])]
    exact scrollCore_zero g s hInv.2.2.2.1 hInv.2.2.2.2
  rw [hms] at hwo hjo
  refine ⟨hwo, ⟨?_, ?_⟩, hjo, ⟨?_, ?_⟩, hwz, hjz⟩
  · rw [hwo]; omega
  · rw [hwo]; rw [hms] at hm; omega
  · rw [hjo]; omega
  · rw [hjo]; rw [hms] at hm; omega

/-- Closed instance for `scroll_clamp_and_zero_noop`: the freshly loaded
demo launcher, wheel delta 240. -/
theorem scroll_clamp_witness :
    (initState demoTabs 0).isValidTabState = true ∧
    ((handleMouseWheel demoGeo 240 (initState demoTabs 0)).1).scrollOffset
      = max 0 (min ((initState demoTabs 0).scrollOffset
            + Int.tdiv (-240) WHEEL_DELTA * demoGeo.mouseSpeed)
          (max 0 (demoGeo.rowsFor (initState demoTabs 0).activeCount
              * demoGeo.rowHeight - demoGeo.availH))) ∧
    handleMouseWheel demoGeo 0 (initState demoTabs 0)
      = (initState demoTabs 0, noEffects) := by
  have h := scroll_clamp_and_zero_noop demoGeo demoTabs (initState demoTabs 0) 240
    (Reachable.init 0) (by decide)
  exact ⟨by decide, h.1, h.2.2.2.2.1⟩

end GameLauncher
